import Mathlib

/-!
Shallow embedding of send_sms.py: a CLI program that sends one SMS via the
Twilio SDK when available, falling back to a direct HTTP POST when the
SDK import fails. We model the CLI arguments, the environment variables, the
behaviour of the vendor SDK (as an oracle), and the HTTP layer (as a world
function from request to response), and trace every network call the
program makes so that claims about which calls happen can be stated.
-/

namespace SendSms

/-- A Python exception, abstracted to its type name, message, and the
optional explicitly chained cause (type name and message of the original
exception, as produced by a raise-from statement). -/
structure PyExc where
  typeName : String
  msg : String
  cause : Option (String × String)
deriving DecidableEq, Repr

/-- An HTTP request as assembled by the requests library call on line 44:
method, url, form-encoded data fields, basic-auth user and password, and
the timeout in seconds. -/
structure HttpRequest where
  method : String
  url : String
  dataFields : List (String × String)
  authUser : String
  authPass : String
  timeout : Nat
deriving DecidableEq, Repr

/-- An HTTP response: status code and the parsed JSON value of the body
(kept abstract as a string; the program never inspects it). -/
structure HttpResponse where
  statusCode : Nat
  jsonBody : String
deriving DecidableEq, Repr

/-- Outcome of one requests.post call: either the call raises (network
failure, timeout) or a response comes back. -/
inductive HttpResult where
  | raises (e : PyExc)
  | response (r : HttpResponse)
deriving DecidableEq, Repr

/-- The HTTP world: what the network does for each request the program
could issue. -/
def HttpWorld : Type := HttpRequest → HttpResult

/-- Network-relevant events, in program order: a message-create call
through the SDK client, or a direct HTTP POST. -/
inductive Event where
  | sdkCreate
  | httpPost (req : HttpRequest)
deriving DecidableEq, Repr

/-- The requests that were POSTed, extracted from an event trace. -/
def httpPosts (evs : List Event) : List HttpRequest :=
  evs.filterMap fun ev =>
    match ev with
    | .httpPost r => some r
    | .sdkCreate => none

/-- The message object returned by client.messages.create: the fields the
program reads (line 33). -/
structure SdkMessage where
  sid : String
  status : String
deriving DecidableEq, Repr

/-- Oracle for the vendor SDK behaviour in the current runtime: the
importResult field is the exception raised by the import on line 28 (none when
the import succeeds), clientResult the exception raised by the Client
constructor on line 31, createResult the outcome of
client.messages.create on line 32. -/
structure SdkEnv where
  importResult : Option PyExc
  clientResult : Option PyExc
  createResult : Except PyExc SdkMessage
deriving Repr

/-- Normalized result of a send: the sid-and-status dict built by
send_with_twilio (line 33) or the parsed JSON body returned by
send_with_requests (line 46). -/
inductive SendResult where
  | sdkResult (sid status : String)
  | httpJson (json : String)
deriving DecidableEq, Repr

/-- One transport invocation: the network events it performed and the
value it returned or the exception it raised. -/
structure Call where
  events : List Event
  result : Except PyExc SendResult
deriving Repr

/-- Embedding of send_with_twilio (lines 26 to 33). The import is tried
first; any exception there is re-raised as ImportError with message
"twilio package not installed" chaining the original. Then the client is
constructed and the message created; the create call is the network
event. The five string parameters do not influence the oracle. -/
def send_with_twilio (sdk : SdkEnv)
    (account_sid auth_token from_number to_number body : String) : Call :=
  match sdk.importResult with
  | some e =>
      { events := []
        result := .error { typeName := "ImportError"
                           msg := "twilio package not installed"
                           cause := some (e.typeName, e.msg) } }
  | none =>
      match sdk.clientResult with
      | some e => { events := [], result := .error e }
      | none =>
          match sdk.createResult with
          | .error e => { events := [.sdkCreate], result := .error e }
          | .ok m =>
              { events := [.sdkCreate]
                result := .ok (.sdkResult m.sid m.status) }

/-- The request assembled by send_with_requests (lines 38 to 44): POST to
the account-specific Messages.json endpoint, form fields From, To, Body,
basic auth with account sid and auth token, 30 second timeout. -/
def twilioHttpRequest
    (account_sid auth_token from_number to_number body : String) : HttpRequest :=
  { method := "POST"
    url := "https://api.twilio.com/2010-04-01/Accounts/" ++ account_sid
             ++ "/Messages.json"
    dataFields := [("From", from_number), ("To", to_number), ("Body", body)]
    authUser := account_sid
    authPass := auth_token
    timeout := 30 }

/-- Embedding of send_with_requests (lines 35 to 46): issue the POST,
raise HTTPError for a 4xx or 5xx status (raise_for_status, line 45),
otherwise return the parsed JSON body unchanged. Exactly one POST is
issued in every case. -/
def send_with_requests (world : HttpWorld)
    (account_sid auth_token from_number to_number body : String) : Call :=
  let req := twilioHttpRequest account_sid auth_token from_number to_number body
  let result : Except PyExc SendResult :=
    match world req with
    | .raises e => .error e
    | .response resp =>
        if 400 ≤ resp.statusCode && resp.statusCode < 600 then
          .error { typeName := "HTTPError"
                   msg := "HTTP error " ++ toString resp.statusCode
                            ++ " for url " ++ req.url
                   cause := none }
        else
          .ok (.httpJson resp.jsonBody)
  { events := [.httpPost req], result := result }

/-- The parsed CLI arguments (parse_args, lines 48 to 55). The to and
body flags are required by the parser; the three credential flags are
optional, so they are modelled as Option String (none when the flag was
not supplied). -/
structure Args where
  «to» : String
  body : String
  account_sid : Option String
  auth_token : Option String
  from_number : Option String
deriving DecidableEq, Repr

/-- The three environment variables the program reads; none models an
unset variable, as returned by os.getenv. -/
structure EnvVars where
  TWILIO_ACCOUNT_SID : Option String
  TWILIO_AUTH_TOKEN : Option String
  TWILIO_FROM : Option String
deriving DecidableEq, Repr

/-- Python truthiness for an optional string: None and the empty string
are falsy. -/
def truthy : Option String → Bool
  | none => false
  | some s => !(s == "")

/-- Python or on optional strings: the left operand when it is truthy,
otherwise the right operand. -/
def pyOr (a b : Option String) : Option String :=
  if truthy a then a else b

/-- The resolved credential configuration after merging CLI values with
environment defaults (lines 59 to 61). -/
structure ResolvedConfig where
  account_sid : Option String
  auth_token : Option String
  from_number : Option String
deriving DecidableEq, Repr

/-- Lines 59 to 61 of main: each credential is the CLI value or-ed with
the corresponding environment variable. -/
def resolveConfig (args : Args) (env : EnvVars) : ResolvedConfig :=
  { account_sid := pyOr args.account_sid env.TWILIO_ACCOUNT_SID
    auth_token := pyOr args.auth_token env.TWILIO_AUTH_TOKEN
    from_number := pyOr args.from_number env.TWILIO_FROM }

/-- The guard on line 63: all three resolved credentials are truthy. -/
def credsOk (cfg : ResolvedConfig) : Bool :=
  truthy cfg.account_sid && truthy cfg.auth_token && truthy cfg.from_number

/-- The message passed to sys.exit on line 64. -/
def missingCredsMsg : String :=
  "Missing credentials. Set TWILIO_ACCOUNT_SID, TWILIO_AUTH_TOKEN, and TWILIO_FROM env vars or pass them via CLI."

/-- How the process terminates: success is exit status 0; exitMsg is
sys.exit with a message (status 1); uncaught is termination by an
uncaught exception (status 1). -/
inductive ExitStatus where
  | success
  | exitMsg (msg : String)
  | uncaught (e : PyExc)
deriving DecidableEq, Repr

/-- Whether the exit status is non-zero. -/
def ExitStatus.isNonzero : ExitStatus → Bool
  | .success => false
  | .exitMsg _ => true
  | .uncaught _ => true

/-- The observable outcome of one invocation: how the process exited,
the network events it performed in order, and the delivery result it
reported (none when no transport succeeded). -/
structure MainOutcome where
  exit : ExitStatus
  events : List Event
  result : Option SendResult
deriving DecidableEq, Repr

/-- Embedding of main (lines 57 to 84): resolve the configuration, exit
with the missing-credentials message when any credential is falsy, else
try send_with_twilio; on an ImportError-typed exception fall back to
send_with_requests; any other exception from either transport is printed
and re-raised, terminating the process. -/
def main (args : Args) (env : EnvVars) (sdk : SdkEnv) (world : HttpWorld) :
    MainOutcome :=
  let cfg := resolveConfig args env
  if credsOk cfg then
    let account_sid := cfg.account_sid.getD ""
    let auth_token := cfg.auth_token.getD ""
    let from_number := cfg.from_number.getD ""
    let to_number := args.«to»
    let body := args.body
    let call := send_with_twilio sdk account_sid auth_token from_number to_number body
    match call.result with
    | .ok r => { exit := .success, events := call.events, result := some r }
    | .error e =>
        if e.typeName == "ImportError" then
          let call2 := send_with_requests world account_sid auth_token
                         from_number to_number body
          match call2.result with
          | .ok r =>
              { exit := .success
                events := call.events ++ call2.events
                result := some r }
          | .error e2 =>
              { exit := .uncaught e2
                events := call.events ++ call2.events
                result := none }
        else
          { exit := .uncaught e, events := call.events, result := none }
  else
    { exit := .exitMsg missingCredsMsg, events := [], result := none }

/-- One string occurs inside another. -/
def containsSub (s sub : String) : Prop := ∃ p q, s = p ++ sub ++ q

/-- The resolved account sid string handed to the transports by main. -/
def resolvedSid (args : Args) (env : EnvVars) : String :=
  (resolveConfig args env).account_sid.getD ""

/-- The resolved auth token string handed to the transports by main. -/
def resolvedToken (args : Args) (env : EnvVars) : String :=
  (resolveConfig args env).auth_token.getD ""

/-- The resolved sender number string handed to the transports by main. -/
def resolvedFrom (args : Args) (env : EnvVars) : String :=
  (resolveConfig args env).from_number.getD ""

/-- The SDK transport never issues a direct HTTP POST: its only network
event is the SDK-internal create call. -/
theorem send_with_twilio_no_http (sdk : SdkEnv) (a t f u b : String) :
    httpPosts (send_with_twilio sdk a t f u b).events = [] := by
  rcases sdk with ⟨iR, cR, crR⟩
  cases iR <;> cases cR <;> cases crR <;> rfl

/-- The fallback transport issues exactly one POST, of the request built
by twilioHttpRequest, whatever the world answers. -/
theorem send_with_requests_events (world : HttpWorld) (a t f u b : String) :
    (send_with_requests world a t f u b).events
      = [Event.httpPost (twilioHttpRequest a t f u b)] := rfl

/-- When the credentials pass the guard and the SDK transport returns a
value, main reports it and succeeds. -/
theorem main_primary_ok (args : Args) (env : EnvVars) (sdk : SdkEnv)
    (world : HttpWorld) (r : SendResult)
    (hcred : credsOk (resolveConfig args env) = true)
    (hres : (send_with_twilio sdk (resolvedSid args env) (resolvedToken args env)
        (resolvedFrom args env) args.«to» args.body).result = .ok r) :
    main args env sdk world =
      { exit := .success
        events := (send_with_twilio sdk (resolvedSid args env)
            (resolvedToken args env) (resolvedFrom args env)
            args.«to» args.body).events
        result := some r } := by
  simp only [resolvedSid, resolvedToken, resolvedFrom] at hres
  simp only [main, hcred, if_true, hres]
  rfl

/-- When the credentials pass the guard and the SDK transport raises an
exception that is not an ImportError, main re-raises it after the
failure message: no fallback runs. -/
theorem main_primary_err (args : Args) (env : EnvVars) (sdk : SdkEnv)
    (world : HttpWorld) (e : PyExc)
    (hcred : credsOk (resolveConfig args env) = true)
    (hres : (send_with_twilio sdk (resolvedSid args env) (resolvedToken args env)
        (resolvedFrom args env) args.«to» args.body).result = .error e)
    (hne : e.typeName ≠ "ImportError") :
    main args env sdk world =
      { exit := .uncaught e
        events := (send_with_twilio sdk (resolvedSid args env)
            (resolvedToken args env) (resolvedFrom args env)
            args.«to» args.body).events
        result := none } := by
  have hne' : (e.typeName == "ImportError") = false := beq_eq_false_iff_ne.mpr hne
  simp only [resolvedSid, resolvedToken, resolvedFrom] at hres
  simp [main, hcred, hres, hne']
  rfl

/-- When the credentials pass the guard, the SDK transport raises an
ImportError, and the fallback transport returns a value, main reports
the fallback value and succeeds. -/
theorem main_fallback_ok (args : Args) (env : EnvVars) (sdk : SdkEnv)
    (world : HttpWorld) (e : PyExc) (r : SendResult)
    (hcred : credsOk (resolveConfig args env) = true)
    (hres : (send_with_twilio sdk (resolvedSid args env) (resolvedToken args env)
        (resolvedFrom args env) args.«to» args.body).result = .error e)
    (himp : e.typeName = "ImportError")
    (hrq : (send_with_requests world (resolvedSid args env) (resolvedToken args env)
        (resolvedFrom args env) args.«to» args.body).result = .ok r) :
    main args env sdk world =
      { exit := .success
        events := (send_with_twilio sdk (resolvedSid args env)
              (resolvedToken args env) (resolvedFrom args env)
              args.«to» args.body).events
            ++ [Event.httpPost (twilioHttpRequest (resolvedSid args env)
                (resolvedToken args env) (resolvedFrom args env)
                args.«to» args.body)]
        result := some r } := by
  have he : (e.typeName == "ImportError") = true := by
    rw [himp]; rfl
  have hev := send_with_requests_events world (resolvedSid args env)
    (resolvedToken args env) (resolvedFrom args env) args.«to» args.body
  simp only [resolvedSid, resolvedToken, resolvedFrom] at hres hrq hev
  simp [main, hcred, hres, he, hrq, ← hev]
  rfl

/-- When the credentials pass the guard, the SDK transport raises an
ImportError, and the fallback transport raises, main re-raises the
fallback exception after reporting it. -/
theorem main_fallback_err (args : Args) (env : EnvVars) (sdk : SdkEnv)
    (world : HttpWorld) (e e2 : PyExc)
    (hcred : credsOk (resolveConfig args env) = true)
    (hres : (send_with_twilio sdk (resolvedSid args env) (resolvedToken args env)
        (resolvedFrom args env) args.«to» args.body).result = .error e)
    (himp : e.typeName = "ImportError")
    (hrq : (send_with_requests world (resolvedSid args env) (resolvedToken args env)
        (resolvedFrom args env) args.«to» args.body).result = .error e2) :
    main args env sdk world =
      { exit := .uncaught e2
        events := (send_with_twilio sdk (resolvedSid args env)
              (resolvedToken args env) (resolvedFrom args env)
              args.«to» args.body).events
            ++ [Event.httpPost (twilioHttpRequest (resolvedSid args env)
                (resolvedToken args env) (resolvedFrom args env)
                args.«to» args.body)]
        result := none } := by
  have he : (e.typeName == "ImportError") = true := by
    rw [himp]; rfl
  have hev := send_with_requests_events world (resolvedSid args env)
    (resolvedToken args env) (resolvedFrom args env) args.«to» args.body
  simp only [resolvedSid, resolvedToken, resolvedFrom] at hres hrq hev
  simp [main, hcred, hres, he, hrq, ← hev]
  rfl

/-- If an optional string is truthy, its value with default empty string
is non-empty. -/
theorem truthy_getD (o : Option String) (h : truthy o = true) :
    o.getD "" ≠ "" := by
  cases o with
  | none => simp [truthy] at h
  | some s =>
      simp only [truthy, Bool.not_eq_true'] at h
      simpa using h

/-- The POST list of an SDK trace followed by one POST is that single
request. -/
theorem httpPosts_fallback_events (sdk : SdkEnv) (a t f u b : String) :
    httpPosts ((send_with_twilio sdk a t f u b).events
        ++ [Event.httpPost (twilioHttpRequest a t f u b)])
      = [twilioHttpRequest a t f u b] := by
  have h0 := send_with_twilio_no_http sdk a t f u b
  simp only [httpPosts, List.filterMap_append] at h0 ⊢
  simp [h0]

/-- Whenever the fallback branch is taken, the POSTs of the whole run are
exactly the one fallback request, whatever the world answers. -/
theorem main_fallback_posts (args : Args) (env : EnvVars) (sdk : SdkEnv)
    (world : HttpWorld) (e : PyExc)
    (hcred : credsOk (resolveConfig args env) = true)
    (hres : (send_with_twilio sdk (resolvedSid args env) (resolvedToken args env)
        (resolvedFrom args env) args.«to» args.body).result = .error e)
    (himp : e.typeName = "ImportError") :
    httpPosts (main args env sdk world).events
      = [twilioHttpRequest (resolvedSid args env) (resolvedToken args env)
          (resolvedFrom args env) args.«to» args.body] := by
  cases hrq : (send_with_requests world (resolvedSid args env)
      (resolvedToken args env) (resolvedFrom args env)
      args.«to» args.body).result with
  | ok r =>
      rw [main_fallback_ok args env sdk world e r hcred hres himp hrq]
      exact httpPosts_fallback_events sdk _ _ _ _ _
  | error e2 =>
      rw [main_fallback_err args env sdk world e e2 hcred hres himp hrq]
      exact httpPosts_fallback_events sdk _ _ _ _ _

/-- C1: when, after merging CLI flags with environment variables, any of
account id, auth token, or sender number is falsy, the process exits via
sys.exit with a non-zero status and the fixed message naming
TWILIO_ACCOUNT_SID, TWILIO_AUTH_TOKEN and TWILIO_FROM, and performs no
network event at all. -/
theorem missing_creds_exits_without_network (args : Args) (env : EnvVars)
    (sdk : SdkEnv) (world : HttpWorld)
    (h : credsOk (resolveConfig args env) = false) :
    (main args env sdk world).exit = .exitMsg missingCredsMsg
      ∧ ((main args env sdk world).exit).isNonzero = true
      ∧ (main args env sdk world).events = []
      ∧ containsSub missingCredsMsg "TWILIO_ACCOUNT_SID"
      ∧ containsSub missingCredsMsg "TWILIO_AUTH_TOKEN"
      ∧ containsSub missingCredsMsg "TWILIO_FROM" := by
  refine ⟨?_, ?_, ?_, ?_, ?_, ?_⟩
  · simp [main, h]
  · simp [main, h, ExitStatus.isNonzero]
  · simp [main, h]
  · exact ⟨"Missing credentials. Set ",
      ", TWILIO_AUTH_TOKEN, and TWILIO_FROM env vars or pass them via CLI.", rfl⟩
  · exact ⟨"Missing credentials. Set TWILIO_ACCOUNT_SID, ",
      ", and TWILIO_FROM env vars or pass them via CLI.", rfl⟩
  · exact ⟨"Missing credentials. Set TWILIO_ACCOUNT_SID, TWILIO_AUTH_TOKEN, and ",
      " env vars or pass them via CLI.", rfl⟩

/-- Witness for C1 at a concrete invocation with no credentials given at
all. -/
theorem missing_creds_exits_without_network_witness :
    credsOk (resolveConfig ⟨"+19876543210", "Hello", none, none, none⟩
        ⟨none, none, none⟩) = false
      ∧ (main ⟨"+19876543210", "Hello", none, none, none⟩ ⟨none, none, none⟩
          ⟨none, none, .ok ⟨"SM1", "queued"⟩⟩
          (fun _ => .response ⟨201, "created"⟩)).exit = .exitMsg missingCredsMsg
      ∧ (main ⟨"+19876543210", "Hello", none, none, none⟩ ⟨none, none, none⟩
          ⟨none, none, .ok ⟨"SM1", "queued"⟩⟩
          (fun _ => .response ⟨201, "created"⟩)).events = [] := by
  have h := missing_creds_exits_without_network
    ⟨"+19876543210", "Hello", none, none, none⟩ ⟨none, none, none⟩
    ⟨none, none, .ok ⟨"SM1", "queued"⟩⟩
    (fun _ => .response ⟨201, "created"⟩) (by decide)
  exact ⟨by decide, h.1, h.2.2.1⟩

/-- C2: when the SDK transport raises an exception whose type is not
ImportError, no HTTP POST is issued (the fallback path never runs) and
the process exits non-zero by re-raising that exception. -/
theorem non_import_failure_skips_fallback (args : Args) (env : EnvVars)
    (sdk : SdkEnv) (world : HttpWorld) (e : PyExc)
    (hcred : credsOk (resolveConfig args env) = true)
    (hres : (send_with_twilio sdk (resolvedSid args env) (resolvedToken args env)
        (resolvedFrom args env) args.«to» args.body).result = .error e)
    (hne : e.typeName ≠ "ImportError") :
    httpPosts (main args env sdk world).events = []
      ∧ (main args env sdk world).exit = .uncaught e
      ∧ ((main args env sdk world).exit).isNonzero = true := by
  rw [main_primary_err args env sdk world e hcred hres hne]
  exact ⟨send_with_twilio_no_http sdk _ _ _ _ _, rfl, rfl⟩

/-- Witness for C2: a vendor-side rejection raised by the create call
leaves no POST in the trace and ends in a non-zero exit. -/
theorem non_import_failure_skips_fallback_witness :
    httpPosts (main ⟨"+15551234567", "Hello", some "AC123", some "tok",
          some "+15550000000"⟩ ⟨none, none, none⟩
        ⟨none, none, .error ⟨"TwilioRestException", "invalid recipient", none⟩⟩
        (fun _ => .response ⟨201, "created"⟩)).events = []
      ∧ (main ⟨"+15551234567", "Hello", some "AC123", some "tok",
          some "+15550000000"⟩ ⟨none, none, none⟩
        ⟨none, none, .error ⟨"TwilioRestException", "invalid recipient", none⟩⟩
        (fun _ => .response ⟨201, "created"⟩)).exit
          = .uncaught ⟨"TwilioRestException", "invalid recipient", none⟩ := by
  have h := non_import_failure_skips_fallback
    ⟨"+15551234567", "Hello", some "AC123", some "tok", some "+15550000000"⟩
    ⟨none, none, none⟩
    ⟨none, none, .error ⟨"TwilioRestException", "invalid recipient", none⟩⟩
    (fun _ => .response ⟨201, "created"⟩)
    ⟨"TwilioRestException", "invalid recipient", none⟩
    (by decide) rfl (by decide)
  exact ⟨h.1, h.2.1⟩

/-- C3: on the fallback path the run issues exactly one HTTP POST, to the
account-specific Messages.json endpoint, with form fields From, To, Body
set to sender, recipient and body, basic auth with account sid and auth
token, and timeout 30. -/
theorem fallback_single_post_request (args : Args) (env : EnvVars)
    (sdk : SdkEnv) (world : HttpWorld) (e : PyExc)
    (hcred : credsOk (resolveConfig args env) = true)
    (hres : (send_with_twilio sdk (resolvedSid args env) (resolvedToken args env)
        (resolvedFrom args env) args.«to» args.body).result = .error e)
    (himp : e.typeName = "ImportError") :
    httpPosts (main args env sdk world).events
        = [twilioHttpRequest (resolvedSid args env) (resolvedToken args env)
            (resolvedFrom args env) args.«to» args.body]
      ∧ (twilioHttpRequest (resolvedSid args env) (resolvedToken args env)
          (resolvedFrom args env) args.«to» args.body).method = "POST"
      ∧ (twilioHttpRequest (resolvedSid args env) (resolvedToken args env)
          (resolvedFrom args env) args.«to» args.body).url
          = "https://api.twilio.com/2010-04-01/Accounts/"
              ++ resolvedSid args env ++ "/Messages.json"
      ∧ (twilioHttpRequest (resolvedSid args env) (resolvedToken args env)
          (resolvedFrom args env) args.«to» args.body).dataFields
          = [("From", resolvedFrom args env), ("To", args.«to»),
             ("Body", args.body)]
      ∧ (twilioHttpRequest (resolvedSid args env) (resolvedToken args env)
          (resolvedFrom args env) args.«to» args.body).authUser
          = resolvedSid args env
      ∧ (twilioHttpRequest (resolvedSid args env) (resolvedToken args env)
          (resolvedFrom args env) args.«to» args.body).authPass
          = resolvedToken args env
      ∧ (twilioHttpRequest (resolvedSid args env) (resolvedToken args env)
          (resolvedFrom args env) args.«to» args.body).timeout = 30 := by
  exact ⟨main_fallback_posts args env sdk world e hcred hres himp,
    rfl, rfl, rfl, rfl, rfl, rfl⟩

/-- Witness for C3 at the concrete configuration of the spec, with the
SDK import failing and the world answering 201. -/
theorem fallback_single_post_request_witness :
    httpPosts (main ⟨"+15551234567", "Hello", some "AC123", some "tok",
          some "+15550000000"⟩ ⟨none, none, none⟩
        ⟨some ⟨"ModuleNotFoundError", "No module named twilio", none⟩, none,
          .ok ⟨"SM1", "queued"⟩⟩
        (fun _ => .response ⟨201, "sent"⟩)).events
      = [twilioHttpRequest "AC123" "tok" "+15550000000" "+15551234567" "Hello"] := by
  have h := fallback_single_post_request
    ⟨"+15551234567", "Hello", some "AC123", some "tok", some "+15550000000"⟩
    ⟨none, none, none⟩
    ⟨some ⟨"ModuleNotFoundError", "No module named twilio", none⟩, none,
      .ok ⟨"SM1", "queued"⟩⟩
    (fun _ => .response ⟨201, "sent"⟩)
    ⟨"ImportError", "twilio package not installed",
      some ("ModuleNotFoundError", "No module named twilio")⟩
    (by decide) rfl rfl
  exact h.1

/-- C4: on the fallback path, a 4xx or 5xx response makes raise_for_status
raise, so the run exits non-zero, reports no result, and never retries
(still exactly one POST); a 2xx response makes the run exit 0 and report
the parsed response body unchanged. -/
theorem fallback_status_code_handling (args : Args) (env : EnvVars)
    (sdk : SdkEnv) (world : HttpWorld) (e : PyExc) (r : HttpResponse)
    (hcred : credsOk (resolveConfig args env) = true)
    (hres : (send_with_twilio sdk (resolvedSid args env) (resolvedToken args env)
        (resolvedFrom args env) args.«to» args.body).result = .error e)
    (himp : e.typeName = "ImportError")
    (hw : world (twilioHttpRequest (resolvedSid args env) (resolvedToken args env)
        (resolvedFrom args env) args.«to» args.body) = .response r) :
    (400 ≤ r.statusCode ∧ r.statusCode < 600 →
        ((main args env sdk world).exit).isNonzero = true
          ∧ (main args env sdk world).result = none
          ∧ httpPosts (main args env sdk world).events
              = [twilioHttpRequest (resolvedSid args env) (resolvedToken args env)
                  (resolvedFrom args env) args.«to» args.body])
      ∧ (200 ≤ r.statusCode ∧ r.statusCode < 300 →
          (main args env sdk world).exit = .success
            ∧ (main args env sdk world).result = some (.httpJson r.jsonBody)
            ∧ httpPosts (main args env sdk world).events
                = [twilioHttpRequest (resolvedSid args env)
                    (resolvedToken args env) (resolvedFrom args env)
                    args.«to» args.body]) := by
  constructor
  · intro hs
    have hcond : (400 ≤ r.statusCode && r.statusCode < 600) = true := by
      simp [hs.1, hs.2]
    have hrq : (send_with_requests world (resolvedSid args env)
        (resolvedToken args env) (resolvedFrom args env)
        args.«to» args.body).result
          = .error { typeName := "HTTPError"
                     msg := "HTTP error " ++ toString r.statusCode
                              ++ " for url "
                              ++ (twilioHttpRequest (resolvedSid args env)
                                  (resolvedToken args env)
                                  (resolvedFrom args env)
                                  args.«to» args.body).url
                     cause := none } := by
      simp only [send_with_requests, hw, hcond]
      rfl
    refine ⟨?_, ?_, main_fallback_posts args env sdk world e hcred hres himp⟩
    · rw [main_fallback_err args env sdk world e _ hcred hres himp hrq]
      rfl
    · rw [main_fallback_err args env sdk world e _ hcred hres himp hrq]
  · intro hs
    have h4 : ¬ (400 ≤ r.statusCode) := by omega
    have hcond : (400 ≤ r.statusCode && r.statusCode < 600) = false := by
      simp [h4]
    have hrq : (send_with_requests world (resolvedSid args env)
        (resolvedToken args env) (resolvedFrom args env)
        args.«to» args.body).result = .ok (.httpJson r.jsonBody) := by
      simp only [send_with_requests, hw, hcond]
      rfl
    refine ⟨?_, ?_, main_fallback_posts args env sdk world e hcred hres himp⟩
    · rw [main_fallback_ok args env sdk world e _ hcred hres himp hrq]
    · rw [main_fallback_ok args env sdk world e _ hcred hres himp hrq]

/-- Witness for C4: a 401 response ends in a non-zero exit with exactly
one POST issued, and a 201 response ends in exit 0 reporting the response
body; both at the concrete configuration of the spec. -/
theorem fallback_status_code_handling_witness :
    (((main ⟨"+15551234567", "Hello", some "AC123", some "tok",
          some "+15550000000"⟩ ⟨none, none, none⟩
        ⟨some ⟨"ModuleNotFoundError", "No module named twilio", none⟩, none,
          .ok ⟨"SM1", "queued"⟩⟩
        (fun _ => .response ⟨401, "unauthorized"⟩)).exit).isNonzero = true
      ∧ httpPosts (main ⟨"+15551234567", "Hello", some "AC123", some "tok",
          some "+15550000000"⟩ ⟨none, none, none⟩
        ⟨some ⟨"ModuleNotFoundError", "No module named twilio", none⟩, none,
          .ok ⟨"SM1", "queued"⟩⟩
        (fun _ => .response ⟨401, "unauthorized"⟩)).events
          = [twilioHttpRequest "AC123" "tok" "+15550000000" "+15551234567"
              "Hello"])
      ∧ ((main ⟨"+15551234567", "Hello", some "AC123", some "tok",
          some "+15550000000"⟩ ⟨none, none, none⟩
        ⟨some ⟨"ModuleNotFoundError", "No module named twilio", none⟩, none,
          .ok ⟨"SM1", "queued"⟩⟩
        (fun _ => .response ⟨201, "sid SM2 status sent"⟩)).exit = .success
      ∧ (main ⟨"+15551234567", "Hello", some "AC123", some "tok",
          some "+15550000000"⟩ ⟨none, none, none⟩
        ⟨some ⟨"ModuleNotFoundError", "No module named twilio", none⟩, none,
          .ok ⟨"SM1", "queued"⟩⟩
        (fun _ => .response ⟨201, "sid SM2 status sent"⟩)).result
          = some (.httpJson "sid SM2 status sent")) := by
  have h401 := fallback_status_code_handling
    ⟨"+15551234567", "Hello", some "AC123", some "tok", some "+15550000000"⟩
    ⟨none, none, none⟩
    ⟨some ⟨"ModuleNotFoundError", "No module named twilio", none⟩, none,
      .ok ⟨"SM1", "queued"⟩⟩
    (fun _ => .response ⟨401, "unauthorized"⟩)
    ⟨"ImportError", "twilio package not installed",
      some ("ModuleNotFoundError", "No module named twilio")⟩
    ⟨401, "unauthorized"⟩
    (by decide) rfl rfl rfl
  have h201 := fallback_status_code_handling
    ⟨"+15551234567", "Hello", some "AC123", some "tok", some "+15550000000"⟩
    ⟨none, none, none⟩
    ⟨some ⟨"ModuleNotFoundError", "No module named twilio", none⟩, none,
      .ok ⟨"SM1", "queued"⟩⟩
    (fun _ => .response ⟨201, "sid SM2 status sent"⟩)
    ⟨"ImportError", "twilio package not installed",
      some ("ModuleNotFoundError", "No module named twilio")⟩
    ⟨201, "sid SM2 status sent"⟩
    (by decide) rfl rfl rfl
  have h1 := h401.1 (by decide)
  have h2 := h201.2 (by decide)
  exact ⟨⟨h1.1, h1.2.2⟩, h2.1, h2.2.1⟩

/-- C5: when the SDK import, client construction and message creation all
succeed, the run reports exactly the sid and status returned by the SDK
and exits 0. -/
theorem sdk_success_reports_sid_status (args : Args) (env : EnvVars)
    (sdk : SdkEnv) (world : HttpWorld) (sid st : String)
    (hcred : credsOk (resolveConfig args env) = true)
    (himp : sdk.importResult = none)
    (hcl : sdk.clientResult = none)
    (hcr : sdk.createResult = .ok ⟨sid, st⟩) :
    (main args env sdk world).exit = .success
      ∧ (main args env sdk world).result = some (.sdkResult sid st) := by
  have hres : (send_with_twilio sdk (resolvedSid args env)
      (resolvedToken args env) (resolvedFrom args env)
      args.«to» args.body).result = .ok (.sdkResult sid st) := by
    simp [send_with_twilio, himp, hcl, hcr]
  rw [main_primary_ok args env sdk world _ hcred hres]
  exact ⟨rfl, rfl⟩

/-- Witness for C5 at the concrete inputs of the spec: the SDK returns
sid SM1 with status queued and the run reports exactly those. -/
theorem sdk_success_reports_sid_status_witness :
    (main ⟨"+15551234567", "Hello", some "AC123", some "tok",
          some "+15550000000"⟩ ⟨none, none, none⟩
        ⟨none, none, .ok ⟨"SM1", "queued"⟩⟩
        (fun _ => .response ⟨201, "created"⟩)).exit = .success
      ∧ (main ⟨"+15551234567", "Hello", some "AC123", some "tok",
          some "+15550000000"⟩ ⟨none, none, none⟩
        ⟨none, none, .ok ⟨"SM1", "queued"⟩⟩
        (fun _ => .response ⟨201, "created"⟩)).result
          = some (.sdkResult "SM1" "queued") := by
  exact sdk_success_reports_sid_status
    ⟨"+15551234567", "Hello", some "AC123", some "tok", some "+15550000000"⟩
    ⟨none, none, none⟩ ⟨none, none, .ok ⟨"SM1", "queued"⟩⟩
    (fun _ => .response ⟨201, "created"⟩) "SM1" "queued"
    (by decide) rfl rfl rfl

/-- C6: for each credential field, a non-empty CLI-supplied value takes
precedence over the environment variable in the resolved configuration,
whatever the environment holds. -/
theorem cli_precedence_over_env (args : Args) (env : EnvVars)
    (h1 : truthy args.account_sid = true)
    (h2 : truthy args.auth_token = true)
    (h3 : truthy args.from_number = true) :
    (resolveConfig args env).account_sid = args.account_sid
      ∧ (resolveConfig args env).auth_token = args.auth_token
      ∧ (resolveConfig args env).from_number = args.from_number := by
  refine ⟨?_, ?_, ?_⟩ <;> simp [resolveConfig, pyOr, h1, h2, h3]

/-- Witness for C6: with every flag and every environment variable set to
different values, the resolved configuration is the CLI values. -/
theorem cli_precedence_over_env_witness :
    (resolveConfig ⟨"+15551234567", "Hello", some "AC_CLI", some "tok_cli",
          some "+15550000000"⟩
        ⟨some "AC_ENV", some "tok_env", some "+15559999999"⟩).account_sid
        = some "AC_CLI"
      ∧ (resolveConfig ⟨"+15551234567", "Hello", some "AC_CLI", some "tok_cli",
          some "+15550000000"⟩
        ⟨some "AC_ENV", some "tok_env", some "+15559999999"⟩).auth_token
        = some "tok_cli"
      ∧ (resolveConfig ⟨"+15551234567", "Hello", some "AC_CLI", some "tok_cli",
          some "+15550000000"⟩
        ⟨some "AC_ENV", some "tok_env", some "+15559999999"⟩).from_number
        = some "+15550000000" := by
  exact cli_precedence_over_env
    ⟨"+15551234567", "Hello", some "AC_CLI", some "tok_cli",
      some "+15550000000"⟩
    ⟨some "AC_ENV", some "tok_env", some "+15559999999"⟩
    (by decide) (by decide) (by decide)

/-- C7 counterexample: the recipient flag may be the empty string (the
parser only requires the flag to be present), and with valid credentials
the program still performs a network call; here the fallback POST issued
carries the empty To field, so a transport runs while a field of the
resolved request is the empty string. -/
theorem empty_recipient_still_reaches_network :
    httpPosts (main ⟨"", "Hello", some "AC123", some "tok",
          some "+15550000000"⟩ ⟨none, none, none⟩
        ⟨some ⟨"ModuleNotFoundError", "No module named twilio", none⟩, none,
          .ok ⟨"SM1", "queued"⟩⟩
        (fun _ => .response ⟨201, "created"⟩)).events
        = [twilioHttpRequest "AC123" "tok" "+15550000000" "" "Hello"]
      ∧ ("To", "") ∈ (twilioHttpRequest "AC123" "tok" "+15550000000" ""
          "Hello").dataFields := by
  decide

/-- C7 amended: whenever the run performs any network event, the three
credential fields of the resolved request (account id, auth token,
sender) are non-empty; recipient and body are required flags but are not
checked for emptiness. -/
theorem network_call_implies_creds_nonempty (args : Args) (env : EnvVars)
    (sdk : SdkEnv) (world : HttpWorld)
    (h : (main args env sdk world).events ≠ []) :
    credsOk (resolveConfig args env) = true
      ∧ resolvedSid args env ≠ ""
      ∧ resolvedToken args env ≠ ""
      ∧ resolvedFrom args env ≠ "" := by
  have hc : credsOk (resolveConfig args env) = true := by
    by_contra hc
    have hcf : credsOk (resolveConfig args env) = false := by
      simpa using hc
    simp [main, hcf] at h
  have h1 : truthy (resolveConfig args env).account_sid = true := by
    have := hc
    simp only [credsOk, Bool.and_eq_true] at this
    exact this.1.1
  have h2 : truthy (resolveConfig args env).auth_token = true := by
    have := hc
    simp only [credsOk, Bool.and_eq_true] at this
    exact this.1.2
  have h3 : truthy (resolveConfig args env).from_number = true := by
    have := hc
    simp only [credsOk, Bool.and_eq_true] at this
    exact this.2
  exact ⟨hc, truthy_getD _ h1, truthy_getD _ h2, truthy_getD _ h3⟩

/-- Witness for the amended C7: a successful SDK send has a non-empty
trace, and all three resolved credentials are indeed non-empty. -/
theorem network_call_implies_creds_nonempty_witness :
    (main ⟨"+15551234567", "Hello", some "AC123", some "tok",
          some "+15550000000"⟩ ⟨none, none, none⟩
        ⟨none, none, .ok ⟨"SM1", "queued"⟩⟩
        (fun _ => .response ⟨201, "created"⟩)).events ≠ []
      ∧ credsOk (resolveConfig ⟨"+15551234567", "Hello", some "AC123",
          some "tok", some "+15550000000"⟩ ⟨none, none, none⟩) = true := by
  refine ⟨by decide, ?_⟩
  exact (network_call_implies_creds_nonempty
    ⟨"+15551234567", "Hello", some "AC123", some "tok", some "+15550000000"⟩
    ⟨none, none, none⟩ ⟨none, none, .ok ⟨"SM1", "queued"⟩⟩
    (fun _ => .response ⟨201, "created"⟩) (by decide)).1

/-- C8: a credential flag supplied as the empty string is falsy, so the
merge falls through to the environment variable: for each field, when the
CLI value is the empty string and the environment value is truthy, the
resolved configuration is the environment value. -/
theorem empty_cli_value_falls_back_to_env (args : Args) (env : EnvVars) :
    (args.account_sid = some "" → truthy env.TWILIO_ACCOUNT_SID = true →
        (resolveConfig args env).account_sid = env.TWILIO_ACCOUNT_SID)
      ∧ (args.auth_token = some "" → truthy env.TWILIO_AUTH_TOKEN = true →
        (resolveConfig args env).auth_token = env.TWILIO_AUTH_TOKEN)
      ∧ (args.from_number = some "" → truthy env.TWILIO_FROM = true →
        (resolveConfig args env).from_number = env.TWILIO_FROM) := by
  refine ⟨fun h _ => ?_, fun h _ => ?_, fun h _ => ?_⟩ <;>
    simp [resolveConfig, pyOr, h, truthy]

/-- Witness for C8: all three flags supplied empty while the environment
holds non-empty values; resolution returns the environment values. -/
theorem empty_cli_value_falls_back_to_env_witness :
    (resolveConfig ⟨"+15551234567", "Hello", some "", some "", some ""⟩
        ⟨some "AC_ENV", some "tok_env", some "+15559999999"⟩).account_sid
        = some "AC_ENV"
      ∧ (resolveConfig ⟨"+15551234567", "Hello", some "", some "", some ""⟩
        ⟨some "AC_ENV", some "tok_env", some "+15559999999"⟩).auth_token
        = some "tok_env"
      ∧ (resolveConfig ⟨"+15551234567", "Hello", some "", some "", some ""⟩
        ⟨some "AC_ENV", some "tok_env", some "+15559999999"⟩).from_number
        = some "+15559999999" := by
  have h := empty_cli_value_falls_back_to_env
    ⟨"+15551234567", "Hello", some "", some "", some ""⟩
    ⟨some "AC_ENV", some "tok_env", some "+15559999999"⟩
  exact ⟨h.1 rfl (by decide), h.2.1 rfl (by decide), h.2.2 rfl (by decide)⟩

/-- C9: any exception raised by the import of the vendor library is
re-raised by send_with_twilio as an ImportError with message twilio
package not installed, chaining the original exception; consequently a
run with truthy credentials takes the fallback path and issues the
fallback POST. -/
theorem any_import_failure_selects_fallback (args : Args) (env : EnvVars)
    (sdk : SdkEnv) (world : HttpWorld) (e : PyExc) (a t f u b : String)
    (he : sdk.importResult = some e)
    (hcred : credsOk (resolveConfig args env) = true) :
    (send_with_twilio sdk a t f u b).result
        = .error { typeName := "ImportError"
                   msg := "twilio package not installed"
                   cause := some (e.typeName, e.msg) }
      ∧ httpPosts (main args env sdk world).events
          = [twilioHttpRequest (resolvedSid args env) (resolvedToken args env)
              (resolvedFrom args env) args.«to» args.body] := by
  have h1 : ∀ a' t' f' u' b' : String,
      (send_with_twilio sdk a' t' f' u' b').result
        = .error { typeName := "ImportError"
                   msg := "twilio package not installed"
                   cause := some (e.typeName, e.msg) } := by
    intro a' t' f' u' b'
    simp [send_with_twilio, he]
  exact ⟨h1 a t f u b,
    main_fallback_posts args env sdk world _ hcred (h1 _ _ _ _ _) rfl⟩

/-- Witness for C9: a SyntaxError raised inside the vendor package
at import time is wrapped as the canonical ImportError and the run falls
back to HTTP. -/
theorem any_import_failure_selects_fallback_witness :
    (send_with_twilio ⟨some ⟨"SyntaxError", "invalid syntax", none⟩, none,
          .ok ⟨"SM1", "queued"⟩⟩ "AC123" "tok" "+15550000000" "+15551234567"
          "Hello").result
        = .error ⟨"ImportError", "twilio package not installed",
            some ("SyntaxError", "invalid syntax")⟩
      ∧ httpPosts (main ⟨"+15551234567", "Hello", some "AC123", some "tok",
          some "+15550000000"⟩ ⟨none, none, none⟩
        ⟨some ⟨"SyntaxError", "invalid syntax", none⟩, none,
          .ok ⟨"SM1", "queued"⟩⟩
        (fun _ => .response ⟨201, "created"⟩)).events
          = [twilioHttpRequest "AC123" "tok" "+15550000000" "+15551234567"
              "Hello"] := by
  exact any_import_failure_selects_fallback
    ⟨"+15551234567", "Hello", some "AC123", some "tok", some "+15550000000"⟩
    ⟨none, none, none⟩
    ⟨some ⟨"SyntaxError", "invalid syntax", none⟩, none, .ok ⟨"SM1", "queued"⟩⟩
    (fun _ => .response ⟨201, "created"⟩)
    ⟨"SyntaxError", "invalid syntax", none⟩
    "AC123" "tok" "+15550000000" "+15551234567" "Hello"
    rfl (by decide)

/-- C10: the orchestrator selects the fallback purely by the exception
type: an ImportError raised after a successful import, during client
construction or message creation, also sends the run down the fallback
HTTP path, which issues the fallback POST. -/
theorem late_import_error_triggers_fallback (args : Args) (env : EnvVars)
    (sdk : SdkEnv) (world : HttpWorld) (e : PyExc)
    (hcred : credsOk (resolveConfig args env) = true)
    (hni : sdk.importResult = none)
    (he : e.typeName = "ImportError")
    (hc : sdk.clientResult = some e
        ∨ (sdk.clientResult = none ∧ sdk.createResult = .error e)) :
    httpPosts (main args env sdk world).events
      = [twilioHttpRequest (resolvedSid args env) (resolvedToken args env)
          (resolvedFrom args env) args.«to» args.body] := by
  have hres : (send_with_twilio sdk (resolvedSid args env)
      (resolvedToken args env) (resolvedFrom args env)
      args.«to» args.body).result = .error e := by
    rcases hc with h | ⟨hcl, hcr⟩
    · simp [send_with_twilio, hni, h]
    · simp [send_with_twilio, hni, hcl, hcr]
  exact main_fallback_posts args env sdk world e hcred hres he

/-- Witness for C10: an ImportError raised by the Client constructor,
after the import itself succeeded, still makes the run issue the fallback
POST. -/
theorem late_import_error_triggers_fallback_witness :
    httpPosts (main ⟨"+15551234567", "Hello", some "AC123", some "tok",
          some "+15550000000"⟩ ⟨none, none, none⟩
        ⟨none, some ⟨"ImportError", "cannot import name aiohttp", none⟩,
          .ok ⟨"SM1", "queued"⟩⟩
        (fun _ => .response ⟨201, "created"⟩)).events
      = [twilioHttpRequest "AC123" "tok" "+15550000000" "+15551234567"
          "Hello"] := by
  exact late_import_error_triggers_fallback
    ⟨"+15551234567", "Hello", some "AC123", some "tok", some "+15550000000"⟩
    ⟨none, none, none⟩
    ⟨none, some ⟨"ImportError", "cannot import name aiohttp", none⟩,
      .ok ⟨"SM1", "queued"⟩⟩
    (fun _ => .response ⟨201, "created"⟩)
    ⟨"ImportError", "cannot import name aiohttp", none⟩
    (by decide) rfl rfl (Or.inl rfl)

end SendSms
